import Mathlib

/-!
Shallow embedding of `napalm/_modules/napalm_network.py` (the salt
execution module `net`), together with theorems checking its
natural-language specification.

Modelling conventions:
* A Python dict row (an ARP/MAC/LLDP record) is an association list
  `List (String × α)`; `dict.get k` is `List.lookup` with Python's
  `None`-on-missing-key behaviour made explicit through `Option`.
* The uniform result envelope returned by every proxy call
  (`{'result': ..., 'comment': ..., 'out': ...}`) becomes a structure.
* The external device driver is an oracle structure holding the result
  each proxy call would return during one run; `_config_logic`
  additionally returns the list of driver calls it performed, so that
  "called at most once" statements are expressible.
* Python string truthiness (`x if x else default`) is `pyOr`.
-/

/-- Substring containment on strings, via infix containment of the
underlying character lists (used to state "the message contains ..."). -/
def strContains (hay pat : String) : Prop := pat.data <:+: hay.data

instance (hay pat : String) : Decidable (strContains hay pat) :=
  inferInstanceAs (Decidable (pat.data <:+: hay.data))

/-- `(a ++ b).data = a.data ++ b.data`; `String.append` concatenates the
underlying lists. -/
theorem strData_append (a b : String) : (a ++ b).data = a.data ++ b.data := rfl

/-- Models the Python idiom `x if x else d` on strings: an empty (falsy)
string is replaced by the default `d`. -/
def pyOr (x d : String) : String := if x = "" then d else x

/-- A record row: one dictionary of the ARP / MAC / LLDP tables, as an
association list from field name to value. -/
abbrev Record (α : Type) : Type := List (String × α)

/-- Python `dictionary.get(search_key)`: the stored value when the key is
present, Python `None` (here `Option.none`) when absent. -/
def pyGet {α : Type} (dictionary : Record α) (search_key : String) : Option α :=
  dictionary.lookup search_key

/-- Embedding of `_filter_list(input_list, search_key, search_value)`:
keeps, in order, every dictionary whose `search_key` entry compares equal
to `search_value`.  `search_value : Option α` so that the Python caller
passing `None` is representable (`none`); a missing key yields `None`,
which compares equal to a `None` search value. -/
def fList {α : Type} [DecidableEq α] (input_list : List (Record α))
    (search_key : String) (search_value : Option α) : List (Record α) :=
  input_list.filter (fun dictionary => pyGet dictionary search_key == search_value)

/-- Embedding of `_filter_dict(input_dict, search_key, search_value)`: a
Python dict of lists of records, iterated in insertion order; each value
list is filtered with `_filter_list` and the key is inserted into the
output dict only when the filtered list is truthy (non-empty). -/
def fDict {α : Type} [DecidableEq α]
    (input_dict : List (String × List (Record α)))
    (search_key : String) (search_value : Option α) :
    List (String × List (Record α)) :=
  input_dict.filterMap (fun kv =>
    let key_list_filtered := fList kv.2 search_key search_value
    if key_list_filtered.isEmpty then none else some (kv.1, key_list_filtered))

/-- A Python scalar argument as passed from the salt CLI to `mac`:
either an `int` or a `str` (the `vlan` parameter's `isinstance(vlan, int)`
check distinguishes the two). -/
inductive PyArg : Type where
  | int : Int → PyArg
  | str : String → PyArg
deriving DecidableEq, Repr

/-- Python truthiness of a scalar: a nonzero int or a non-empty string. -/
def PyArg.truthy : PyArg → Bool
  | .int n => n != 0
  | .str s => s ≠ ""

/-- Python `isinstance(x, int)`. -/
def PyArg.isInt : PyArg → Bool
  | .int _ => true
  | .str _ => false

/-- The envelope returned by `__proxy__['napalm.call']`: a dict with keys
`result` (bool), `comment` (str) and `out` (the payload, of varying type). -/
structure ProxyOut (γ : Type) where
  result : Bool
  comment : String
  out : γ
deriving DecidableEq, Repr

/-- Embedding of `arp(interface, ipaddr, macaddr)`: on a falsy driver
result the envelope is returned unchanged; otherwise each truthy argument
applies one `_filter_list` pass over the ARP table, then `out` is replaced
by the filtered table. -/
def arp (proxy_output : ProxyOut (List (Record PyArg)))
    (interface ipaddr macaddr : String) : ProxyOut (List (Record PyArg)) :=
  if !proxy_output.result then proxy_output
  else
    let t0 := proxy_output.out
    let t1 := if interface ≠ "" then fList t0 "interface" (some (.str interface)) else t0
    let t2 := if ipaddr ≠ "" then fList t1 "ip" (some (.str ipaddr)) else t1
    let t3 := if macaddr ≠ "" then fList t2 "mac" (some (.str macaddr)) else t2
    { proxy_output with out := t3 }

/-- Embedding of `mac(address, interface, vlan)`: on a falsy driver result
the envelope is returned unchanged; otherwise the `vlan` filter runs only
when `vlan` is truthy AND an `int` (`if vlan and isinstance(vlan, int)`),
then the `address` and `interface` filters run when truthy. -/
def mac (proxy_output : ProxyOut (List (Record PyArg)))
    (address interface : String) (vlan : PyArg) : ProxyOut (List (Record PyArg)) :=
  if !proxy_output.result then proxy_output
  else
    let t0 := proxy_output.out
    let t1 := if vlan.truthy && vlan.isInt then fList t0 "vlan" (some vlan) else t0
    let t2 := if address ≠ "" then fList t1 "mac" (some (.str address)) else t1
    let t3 := if interface ≠ "" then fList t2 "interface" (some (.str interface)) else t2
    { proxy_output with out := t3 }

/-- Python `table.get(k)` on a dict whose values are neighbor lists
(`Option β` so that a stored `None` and a missing key are both `none`). -/
def pyDictGet {β : Type} (tbl : List (String × Option β)) (k : String) : Option β :=
  (tbl.lookup k).getD none

/-- Embedding of `lldp(interface)`: on a falsy driver result the envelope
is returned unchanged; otherwise, when `interface` is truthy, `out` is
replaced by the ONE-key dict `{interface: lldp_neighbors.get(interface)}`
(so a missing interface maps the key to Python `None`). -/
def lldp {β : Type} (proxy_output : ProxyOut (List (String × Option β)))
    (interface : String) : ProxyOut (List (String × Option β)) :=
  if !proxy_output.result then proxy_output
  else
    let lldp_neighbors := proxy_output.out
    let lldp_neighbors :=
      if interface ≠ "" then [(interface, pyDictGet lldp_neighbors interface)]
      else lldp_neighbors
    { proxy_output with out := lldp_neighbors }

/-- The result dict of one driver primitive (`compare_config`, `commit`,
`discard_config`, `rollback`): keys `result`, `comment`, `out`. -/
structure OpResult where
  result : Bool
  comment : String
  out : String := ""
deriving DecidableEq, Repr

/-- The `loaded_result` dict flowing through `_config_logic`: keys
`result`, `comment`, the raw staging `out` (popped once a diff is known,
tracked by `hasOut`), the optional `diff`, and `already_configured`. -/
structure LoadedResult where
  result : Bool
  comment : String
  hasOut : Bool := true
  out : String := ""
  diff : Option String := none
  already_configured : Bool := false
deriving DecidableEq, Repr

/-- One driver call performed during `_config_logic`. -/
inductive NetCall : Type where
  | compareC
  | commitC
  | discardC
deriving DecidableEq, Repr

/-- Oracle for the driver calls `_config_logic` may perform during one
run: the envelopes `compare_config()`, `commit()` and `discard_config()`
would return. -/
structure ConfigDriver where
  compareRes : OpResult
  commitRes : OpResult
  discardRes : OpResult
deriving DecidableEq, Repr

/-- Embedding of `_config_logic(loaded_result, test, commit_config)`,
paired with the trace of driver calls it performs.  Mirrors the source
statement by statement: set `already_configured = False`; run
`compare_config()` and on success move its `out` into `diff` (popping the
raw `out`); then either the discard branch (staging failed or `test`), the
commit branch (`commit_config` with a non-empty diff, discarding after a
failed commit), the released-session branch (`commit_config` with an empty
diff), or no further action. -/
def configLogic (drv : ConfigDriver) (loaded_result : LoadedResult)
    (test : Bool) (commit_config : Bool) : LoadedResult × List NetCall :=
  let r0 : LoadedResult := { loaded_result with already_configured := false }
  let compare := drv.compareRes
  let r1 : LoadedResult :=
    if compare.result then { r0 with diff := some compare.out, hasOut := false, out := "" }
    else r0
  let loaded_res := r1.result
  if !loaded_res || test then
    let r2 : LoadedResult :=
      if r1.comment ≠ "" then { r1 with comment := r1.comment ++ "\n" } else r1
    let r3 : LoadedResult :=
      if !((r2.diff.getD "").length > 0) then { r2 with already_configured := true } else r2
    let discarded := drv.discardRes
    if !discarded.result then
      ({ r3 with
          comment := r3.comment ++ pyOr discarded.comment "Unable to discard config."
          result := false },
        [NetCall.compareC, NetCall.discardC])
    else
      ({ r3 with comment := r3.comment ++ "Configuration discarded." },
        [NetCall.compareC, NetCall.discardC])
  else if !test && commit_config then
    if (r1.diff.getD "").length > 0 then
      let commit := drv.commitRes
      if !commit.result then
        let r2 : LoadedResult :=
          { r1 with
              comment := r1.comment ++ pyOr commit.comment "Unable to commit config."
              result := false }
        let discarded := drv.discardRes
        ({ r2 with
            comment := r2.comment ++ "\n" ++ pyOr discarded.comment "Unable to discard config." },
          [NetCall.compareC, NetCall.commitC, NetCall.discardC])
      else
        (r1, [NetCall.compareC, NetCall.commitC])
    else
      let discarded := drv.discardRes
      if !discarded.result then
        ({ r1 with
            comment := r1.comment ++ pyOr discarded.comment "Unable to discard config."
            result := false },
          [NetCall.compareC, NetCall.discardC])
      else
        ({ r1 with already_configured := true, comment := "Already configured." },
          [NetCall.compareC, NetCall.discardC])
  else
    (r1, [NetCall.compareC])

/-- The diff string `_config_logic` ends up testing with
`len(loaded_result.get('diff', '')) > 0`: the compare output when
`compare_config()` succeeded, otherwise whatever `diff` the input already
carried (default `''`). -/
def effectiveDiff (drv : ConfigDriver) (loaded_result : LoadedResult) : String :=
  if drv.compareRes.result then drv.compareRes.out else loaded_result.diff.getD ""

/-- Embedding of `config_changed()`, parameterised by the envelope
`compare_config()` returns: `(is_config_changed, reason)`. -/
def configChanged (try_compare : OpResult) : Bool × String :=
  if try_compare.result then
    if try_compare.out ≠ "" then (true, "")
    else (false, "Configuration was not changed on the device.")
  else (false, try_compare.comment)

/-- Oracle for the driver calls `config_control` may perform:
`compare_config()` (through `config_changed`), `commit()`, `rollback()`. -/
structure CtrlDriver where
  compareRes : OpResult
  commitRes : OpResult
  rollbackRes : OpResult
deriving DecidableEq, Repr

/-- Embedding of `config_control()`: if `config_changed` reports no
change, return `(changed, not_changed_reason)`; otherwise commit; on
commit failure build the "Unable to commit the changes: ...! " comment
(the string literal keeps the 8 leading spaces of the Python line
continuation), roll back, and on rollback failure append its reason;
return `(result, comment)`. -/
def configControl (drv : CtrlDriver) : Bool × String :=
  let changed := configChanged drv.compareRes
  if !changed.1 then changed
  else
    let try_commit := drv.commitRes
    if !try_commit.result then
      let comment :=
        "Unable to commit the changes: " ++ try_commit.comment ++
          ".\n        Will try to rollback now!"
      let try_rollback := drv.rollbackRes
      if !try_rollback.result then
        (false, comment ++ "\nCannot rollback! " ++ try_rollback.comment)
      else
        (false, comment)
    else
      (true, "")

/-!  Helper lemmas about substring containment and string lengths. -/

/-- Every string contains itself. -/
theorem strContains_self (x : String) : strContains x x :=
  ⟨[], [], by simp⟩

/-- Every string contains the empty string. -/
theorem strContains_empty (x : String) : strContains x "" :=
  ⟨[], x.data, by simp⟩

/-- Containment survives appending on the right. -/
theorem strContains_appendL {x p : String} (h : strContains x p) (y : String) :
    strContains (x ++ y) p := by
  have hxy : x.data <:+: (x ++ y).data := ⟨[], y.data, by simp [strData_append]⟩
  exact h.trans hxy

/-- Containment survives appending on the left. -/
theorem strContains_appendR {y p : String} (h : strContains y p) (x : String) :
    strContains (x ++ y) p := by
  have hxy : y.data <:+: (x ++ y).data := ⟨x.data, [], by simp [strData_append]⟩
  exact h.trans hxy

/-- `pyOr x d` contains `x`: either it is `x` itself, or `x` was empty and
the empty string is contained in everything. -/
theorem strContains_pyOr (x d : String) : strContains (pyOr x d) x := by
  by_cases h : x = ""
  · subst h
    exact ⟨[], (pyOr "" d).data, by simp⟩
  · simpa [pyOr, h] using strContains_self x

/-- A non-empty string has positive length. -/
theorem strLength_pos {s : String} (h : s ≠ "") : 0 < s.length := by
  cases s with
  | mk d =>
    cases d with
    | nil => simp at h
    | cons x xs => simp [String.length]

/-- C1: for every transaction where staging succeeded (`result` true),
testMode is false, autoCommit is true, the diff is non-empty, the commit
fails and the discard succeeds, `_config_logic` returns a result with
`result = false` whose comment contains both the commit failure reason and
the discard confirmation (the comment of the discard envelope). -/
theorem configLogic_commit_failure_compensation
    (drv : ConfigDriver) (loaded : LoadedResult)
    (h1 : loaded.result = true) (h2 : effectiveDiff drv loaded ≠ "")
    (h3 : drv.commitRes.result = false) (h4 : drv.discardRes.result = true) :
    (configLogic drv loaded false true).1.result = false ∧
    strContains (configLogic drv loaded false true).1.comment drv.commitRes.comment ∧
    strContains (configLogic drv loaded false true).1.comment drv.discardRes.comment := by
  obtain ⟨cmp, cmt, dsc⟩ := drv
  obtain ⟨lr, lc, lh, lo, ld, la⟩ := loaded
  simp only [LoadedResult.result] at h1
  subst h1
  simp only at h3 h4
  by_cases hc : cmp.result
  · have hlen : 0 < cmp.out.length := by
      apply strLength_pos
      simpa [effectiveDiff, hc] using h2
    simp [configLogic, hc, h3, h4, hlen]
    refine ⟨?_, ?_⟩
    · exact strContains_appendL (strContains_appendL (strContains_appendR (strContains_pyOr _ _) _) _) _
    · exact strContains_appendR (strContains_pyOr _ _) _
  · have hlen : 0 < (ld.getD "").length := by
      apply strLength_pos
      simpa [effectiveDiff, hc] using h2
    simp [configLogic, hc, h3, h4, hlen]
    refine ⟨?_, ?_⟩
    · exact strContains_appendL (strContains_appendL (strContains_appendR (strContains_pyOr _ _) _) _) _
    · exact strContains_appendR (strContains_pyOr _ _) _

/-- C1 witness: a concrete run (staging ok, diff "+x", commit fails with
"commit boom", discard succeeds saying "candidate dropped"). -/
theorem configLogic_commit_failure_compensation_witness :
    (configLogic ⟨⟨true, "", "+x"⟩, ⟨false, "commit boom", ""⟩, ⟨true, "candidate dropped", ""⟩⟩
       ⟨true, "loaded ok", true, "raw", none, false⟩ false true).1.result = false ∧
    strContains (configLogic ⟨⟨true, "", "+x"⟩, ⟨false, "commit boom", ""⟩, ⟨true, "candidate dropped", ""⟩⟩
       ⟨true, "loaded ok", true, "raw", none, false⟩ false true).1.comment "commit boom" ∧
    strContains (configLogic ⟨⟨true, "", "+x"⟩, ⟨false, "commit boom", ""⟩, ⟨true, "candidate dropped", ""⟩⟩
       ⟨true, "loaded ok", true, "raw", none, false⟩ false true).1.comment "candidate dropped" :=
  configLogic_commit_failure_compensation
    ⟨⟨true, "", "+x"⟩, ⟨false, "commit boom", ""⟩, ⟨true, "candidate dropped", ""⟩⟩
    ⟨true, "loaded ok", true, "raw", none, false⟩ rfl (by decide) rfl rfl

/-- C2 counterexample: with testMode false, autoCommit true and an empty
diff, but a failing discard, `_config_logic` returns
`already_configured = false` and the discard failure message instead of
"Already configured." — the claim does not hold for every such call. -/
theorem configLogic_already_configured_needs_discard_counterexample :
    (configLogic ⟨⟨true, "", ""⟩, ⟨true, "", ""⟩, ⟨false, "discard boom", ""⟩⟩
       ⟨true, "", true, "raw", none, false⟩ false true).1.already_configured = false ∧
    (configLogic ⟨⟨true, "", ""⟩, ⟨true, "", ""⟩, ⟨false, "discard boom", ""⟩⟩
       ⟨true, "", true, "raw", none, false⟩ false true).1.comment ≠ "Already configured." := by
  decide

/-- C2 amended: with testMode false, autoCommit true, STAGING SUCCEEDED and
an empty diff, provided the discard succeeds, `_config_logic` returns
`already_configured = true` and message exactly "Already configured."
(overwriting any prior message). -/
theorem configLogic_empty_diff_already_configured
    (drv : ConfigDriver) (loaded : LoadedResult)
    (h1 : loaded.result = true) (h2 : effectiveDiff drv loaded = "")
    (h3 : drv.discardRes.result = true) :
    (configLogic drv loaded false true).1.already_configured = true ∧
    (configLogic drv loaded false true).1.comment = "Already configured." := by
  obtain ⟨cmp, cmt, dsc⟩ := drv
  obtain ⟨lr, lc, lh, lo, ld, la⟩ := loaded
  simp only [LoadedResult.result] at h1
  subst h1
  simp only at h3
  by_cases hc : cmp.result
  · simp [effectiveDiff, hc] at h2
    simp [configLogic, hc, h2, h3]
  · simp [effectiveDiff, hc] at h2
    simp [configLogic, hc, h2, h3]

/-- C2 witness: staging ok with prior message "prior note", empty diff,
discard ok. -/
theorem configLogic_empty_diff_already_configured_witness :
    (configLogic ⟨⟨true, "", ""⟩, ⟨true, "", ""⟩, ⟨true, "", ""⟩⟩
       ⟨true, "prior note", true, "raw", none, false⟩ false true).1.already_configured = true ∧
    (configLogic ⟨⟨true, "", ""⟩, ⟨true, "", ""⟩, ⟨true, "", ""⟩⟩
       ⟨true, "prior note", true, "raw", none, false⟩ false true).1.comment = "Already configured." :=
  configLogic_empty_diff_already_configured
    ⟨⟨true, "", ""⟩, ⟨true, "", ""⟩, ⟨true, "", ""⟩⟩
    ⟨true, "prior note", true, "raw", none, false⟩ rfl (by decide) rfl

/-- C3: with testMode true and a non-empty diff, provided the discard
succeeds, `_config_logic` returns `already_configured = false`, a message
containing "Configuration discarded.", and leaves `result` at whatever
value the staging result carried (it may be true). -/
theorem configLogic_test_mode_discard
    (drv : ConfigDriver) (loaded : LoadedResult) (cc : Bool)
    (h2 : effectiveDiff drv loaded ≠ "") (h3 : drv.discardRes.result = true) :
    (configLogic drv loaded true cc).1.already_configured = false ∧
    strContains (configLogic drv loaded true cc).1.comment "Configuration discarded." ∧
    (configLogic drv loaded true cc).1.result = loaded.result := by
  obtain ⟨cmp, cmt, dsc⟩ := drv
  obtain ⟨lr, lc, lh, lo, ld, la⟩ := loaded
  simp only at h3
  by_cases hc : cmp.result
  · have hlen : 0 < cmp.out.length := by
      apply strLength_pos
      simpa [effectiveDiff, hc] using h2
    by_cases hlc : lc = ""
    · simp [configLogic, hc, h3, hlen, hlc]
      exact strContains_self _
    · simp [configLogic, hc, h3, hlen, hlc]
      exact strContains_appendR (strContains_self _) _
  · have hlen : 0 < (ld.getD "").length := by
      apply strLength_pos
      simpa [effectiveDiff, hc] using h2
    by_cases hlc : lc = ""
    · simp [configLogic, hc, h3, hlen, hlc]
      exact strContains_self _
    · simp [configLogic, hc, h3, hlen, hlc]
      exact strContains_appendR (strContains_self _) _

/-- C3 witness: a test-mode run with staging ok (`result` true), diff "+x"
and a successful discard; `result` stays true. -/
theorem configLogic_test_mode_discard_witness :
    (configLogic ⟨⟨true, "", "+x"⟩, ⟨true, "", ""⟩, ⟨true, "", ""⟩⟩
       ⟨true, "prior", true, "raw", none, false⟩ true true).1.already_configured = false ∧
    strContains (configLogic ⟨⟨true, "", "+x"⟩, ⟨true, "", ""⟩, ⟨true, "", ""⟩⟩
       ⟨true, "prior", true, "raw", none, false⟩ true true).1.comment "Configuration discarded." ∧
    (configLogic ⟨⟨true, "", "+x"⟩, ⟨true, "", ""⟩, ⟨true, "", ""⟩⟩
       ⟨true, "prior", true, "raw", none, false⟩ true true).1.result =
      (⟨true, "prior", true, "raw", none, false⟩ : LoadedResult).result :=
  configLogic_test_mode_discard
    ⟨⟨true, "", "+x"⟩, ⟨true, "", ""⟩, ⟨true, "", ""⟩⟩
    ⟨true, "prior", true, "raw", none, false⟩ true (by decide) rfl

/-- C4 counterexample: when `compare_config()` fails (staging itself
succeeded, testMode false, autoCommit true, discard ok), its failure
message "COMPARE-FAILED" is NOT surfaced in the returned message — the
code drops the compare envelope entirely, proceeds with an empty diff and
reports "Already configured.". -/
theorem configLogic_compare_failure_unsurfaced_counterexample :
    ¬ strContains (configLogic ⟨⟨false, "COMPARE-FAILED", ""⟩, ⟨true, "", ""⟩, ⟨true, "", ""⟩⟩
        ⟨true, "", true, "raw", none, false⟩ false true).1.comment "COMPARE-FAILED" ∧
    (configLogic ⟨⟨false, "COMPARE-FAILED", ""⟩, ⟨true, "", ""⟩, ⟨true, "", ""⟩⟩
        ⟨true, "", true, "raw", none, false⟩ false true).1.comment = "Already configured." := by
  decide

/-- C4 amended: in every run `discard_config()` is called at most once;
when STAGING failed it is called exactly once and the failure is surfaced
with a combined message (the staging failure message, plus either
"Configuration discarded." on discard success or the discard failure
message on discard failure).  A `compare_config()` failure, however, is
NOT surfaced: its message is dropped (see the counterexample). -/
theorem configLogic_staging_failure_discard
    (drv : ConfigDriver) (loaded : LoadedResult) (test cc : Bool) :
    (configLogic drv loaded test cc).2.count NetCall.discardC ≤ 1 ∧
    (loaded.result = false →
      (configLogic drv loaded test cc).2.count NetCall.discardC = 1 ∧
      strContains (configLogic drv loaded test cc).1.comment loaded.comment ∧
      (drv.discardRes.result = true →
        strContains (configLogic drv loaded test cc).1.comment "Configuration discarded.") ∧
      (drv.discardRes.result = false →
        strContains (configLogic drv loaded test cc).1.comment
          (pyOr drv.discardRes.comment "Unable to discard config."))) := by
  obtain ⟨cmp, cmt, dsc⟩ := drv
  obtain ⟨lr, lc, lh, lo, ld, la⟩ := loaded
  constructor
  · simp only [configLogic]
    split_ifs <;> simp
  · intro hres
    simp only [LoadedResult.result] at hres
    subst hres
    by_cases hc : cmp.result <;> by_cases hd : dsc.result <;> by_cases hlc : lc = "" <;>
      simp [configLogic, hc, hd, hlc, apply_ite] <;>
      refine ⟨?_, ?_⟩ <;>
      first
        | exact strContains_empty _
        | exact strContains_self _
        | exact strContains_appendR (strContains_self _) _
        | exact strContains_appendL (strContains_appendL (strContains_self _) _) _

/-- C4 witness: a run with failed staging ("staging exploded") and a
successful discard calls discard exactly once and surfaces both pieces. -/
theorem configLogic_staging_failure_discard_witness :
    (configLogic ⟨⟨true, "", ""⟩, ⟨true, "", ""⟩, ⟨true, "", ""⟩⟩
       ⟨false, "staging exploded", true, "", none, false⟩ false true).2.count NetCall.discardC = 1 ∧
    strContains (configLogic ⟨⟨true, "", ""⟩, ⟨true, "", ""⟩, ⟨true, "", ""⟩⟩
       ⟨false, "staging exploded", true, "", none, false⟩ false true).1.comment "staging exploded" ∧
    strContains (configLogic ⟨⟨true, "", ""⟩, ⟨true, "", ""⟩, ⟨true, "", ""⟩⟩
       ⟨false, "staging exploded", true, "", none, false⟩ false true).1.comment "Configuration discarded." :=
  ⟨((configLogic_staging_failure_discard ⟨⟨true, "", ""⟩, ⟨true, "", ""⟩, ⟨true, "", ""⟩⟩
       ⟨false, "staging exploded", true, "", none, false⟩ false true).2 rfl).1,
   ((configLogic_staging_failure_discard ⟨⟨true, "", ""⟩, ⟨true, "", ""⟩, ⟨true, "", ""⟩⟩
       ⟨false, "staging exploded", true, "", none, false⟩ false true).2 rfl).2.1,
   ((configLogic_staging_failure_discard ⟨⟨true, "", ""⟩, ⟨true, "", ""⟩, ⟨true, "", ""⟩⟩
       ⟨false, "staging exploded", true, "", none, false⟩ false true).2 rfl).2.2.1 rfl⟩

set_option maxRecDepth 8000 in
/-- C5 counterexample: drift present, commit fails with "syntax error",
rollback SUCCEEDS returning the comment "Rollback complete." — the
result is `(false, comment)` and the comment embeds the commit failure
reason, but it contains NO rollback confirmation: `config_control`
appends nothing when the rollback succeeds. -/
theorem configControl_no_rollback_confirmation_counterexample :
    (configControl ⟨⟨true, "", "+x"⟩, ⟨false, "syntax error", ""⟩,
        ⟨true, "Rollback complete.", ""⟩⟩).1 = false ∧
    strContains (configControl ⟨⟨true, "", "+x"⟩, ⟨false, "syntax error", ""⟩,
        ⟨true, "Rollback complete.", ""⟩⟩).2 "syntax error" ∧
    ¬ strContains (configControl ⟨⟨true, "", "+x"⟩, ⟨false, "syntax error", ""⟩,
        ⟨true, "Rollback complete.", ""⟩⟩).2 "Rollback complete." := by
  decide

set_option maxRecDepth 8000 in
/-- C5 amended: with drift present and a failing commit, `config_control`
returns `(false, comment)` whatever the rollback outcome; the comment
embeds the commit failure reason and the rollback INTENT notice
"Will try to rollback now!"; a rollback failure appends its reason; a
rollback success appends nothing (so no rollback confirmation appears),
and the result is never flipped back to true. -/
theorem configControl_commit_failure_rollback (drv : CtrlDriver)
    (h1 : drv.compareRes.result = true) (h2 : drv.compareRes.out ≠ "")
    (h3 : drv.commitRes.result = false) :
    (configControl drv).1 = false ∧
    strContains (configControl drv).2 drv.commitRes.comment ∧
    strContains (configControl drv).2 "Will try to rollback now!" ∧
    (drv.rollbackRes.result = false → strContains (configControl drv).2 drv.rollbackRes.comment) ∧
    (drv.rollbackRes.result = true → (configControl drv).2 =
      "Unable to commit the changes: " ++ drv.commitRes.comment ++
        ".\n        Will try to rollback now!") := by
  obtain ⟨cmp, cmt, rb⟩ := drv
  simp only at h1 h2 h3
  have hB : strContains ".\n        Will try to rollback now!" "Will try to rollback now!" := by
    decide
  by_cases hr : rb.result <;>
    simp [configControl, configChanged, h1, h2, h3, hr]
  · exact ⟨strContains_appendL (strContains_appendR (strContains_self _) _) _,
      strContains_appendR hB _⟩
  · exact ⟨strContains_appendL (strContains_appendL (strContains_appendL
        (strContains_appendR (strContains_self _) _) _) _) _,
      strContains_appendL (strContains_appendL (strContains_appendR hB _) _) _,
      strContains_appendR (strContains_self _) _⟩

/-- C5 witness: drift present, commit fails with "syntax error", rollback
fails with "rollback lost" — result false, all pieces in the comment. -/
theorem configControl_commit_failure_rollback_witness :
    (configControl ⟨⟨true, "", "+x"⟩, ⟨false, "syntax error", ""⟩,
        ⟨false, "rollback lost", ""⟩⟩).1 = false ∧
    strContains (configControl ⟨⟨true, "", "+x"⟩, ⟨false, "syntax error", ""⟩,
        ⟨false, "rollback lost", ""⟩⟩).2 "syntax error" ∧
    strContains (configControl ⟨⟨true, "", "+x"⟩, ⟨false, "syntax error", ""⟩,
        ⟨false, "rollback lost", ""⟩⟩).2 "Will try to rollback now!" ∧
    strContains (configControl ⟨⟨true, "", "+x"⟩, ⟨false, "syntax error", ""⟩,
        ⟨false, "rollback lost", ""⟩⟩).2 "rollback lost" :=
  ⟨(configControl_commit_failure_rollback ⟨⟨true, "", "+x"⟩, ⟨false, "syntax error", ""⟩,
        ⟨false, "rollback lost", ""⟩⟩ rfl (by decide) rfl).1,
   (configControl_commit_failure_rollback ⟨⟨true, "", "+x"⟩, ⟨false, "syntax error", ""⟩,
        ⟨false, "rollback lost", ""⟩⟩ rfl (by decide) rfl).2.1,
   (configControl_commit_failure_rollback ⟨⟨true, "", "+x"⟩, ⟨false, "syntax error", ""⟩,
        ⟨false, "rollback lost", ""⟩⟩ rfl (by decide) rfl).2.2.1,
   (configControl_commit_failure_rollback ⟨⟨true, "", "+x"⟩, ⟨false, "syntax error", ""⟩,
        ⟨false, "rollback lost", ""⟩⟩ rfl (by decide) rfl).2.2.2.1 rfl⟩

/-- C6: `config_changed` returns exactly one of three outcomes — compare
failure gives `(false, compare comment)`; success with non-empty diff
gives `(true, "")`; success with empty diff gives
`(false, "Configuration was not changed on the device.")`. -/
theorem configChanged_trichotomy (try_compare : OpResult) :
    (try_compare.result = false → configChanged try_compare = (false, try_compare.comment)) ∧
    (try_compare.result = true → try_compare.out ≠ "" → configChanged try_compare = (true, "")) ∧
    (try_compare.result = true → try_compare.out = "" →
      configChanged try_compare = (false, "Configuration was not changed on the device.")) :=
  ⟨fun h => by simp [configChanged, h],
   fun h h2 => by simp [configChanged, h, h2],
   fun h h2 => by simp [configChanged, h, h2]⟩

/-- C6 witness: a failing compare envelope propagates its comment. -/
theorem configChanged_trichotomy_witness :
    configChanged ⟨false, "compare kaput", ""⟩ = (false, "compare kaput") :=
  (configChanged_trichotomy ⟨false, "compare kaput", ""⟩).1 rfl

/-- C7 counterexample: filtering the LLDP table `{"eth0": ...}` on the
interface "eth1" (a group whose value list is missing, hence empty) does
NOT omit the group: the output is the one-key dict `{"eth1": None}` —
the key is included with a null value, and no `_filter_dict`-style
omission happens. -/
theorem lldp_null_group_counterexample :
    (lldp (⟨true, "", [("eth0", some 1)]⟩ : ProxyOut (List (String × Option Nat))) "eth1").out
      = [("eth1", none)] := by
  decide

/-- C7 amended: on a successful driver result and a truthy interface
argument, `lldp` replaces `out` with the one-key dict mapping the named
interface to `table.get(interface)` — the named interface's group when
present, Python `None` when absent (never omitted); `result` and
`comment` pass through. -/
theorem lldp_interface_group_selection {β : Type}
    (drv : ProxyOut (List (String × Option β))) (itf : String)
    (h1 : drv.result = true) (h2 : itf ≠ "") :
    (lldp drv itf).out = [(itf, pyDictGet drv.out itf)] ∧
    (lldp drv itf).result = drv.result ∧ (lldp drv itf).comment = drv.comment := by
  obtain ⟨r, c, o⟩ := drv
  simp only at h1
  subst h1
  simp [lldp, h2]

/-- C7 witness: a present interface keeps its own group. -/
theorem lldp_interface_group_selection_witness :
    (lldp (⟨true, "", [("eth0", some 2)]⟩ : ProxyOut (List (String × Option Nat))) "eth0").out
      = [("eth0", some 2)] := by
  have h := (lldp_interface_group_selection
    (⟨true, "", [("eth0", some 2)]⟩ : ProxyOut (List (String × Option Nat))) "eth0" rfl
    (by decide)).1
  simpa [pyDictGet] using h

/-- C8 counterexample: with the Python value `None` (`none`) and a key
absent from every record, `_filter_list` returns the WHOLE input, not the
empty sequence: `dictionary.get` yields `None` for the missing key, which
compares equal to the `None` search value. -/
theorem fList_none_value_counterexample :
    fList [[("a", (1 : Int))]] "b" none = [[("a", (1 : Int))]] ∧
    pyGet [("a", (1 : Int))] "b" = none := by
  decide

/-- C8 amended: for every NON-None search value, `_filter_list` returns,
in original order (a sublist of the input), exactly the records whose
field `key` equals the value under exact equality; a key absent from all
records yields the empty sequence and a value matching every record
returns the input verbatim. -/
theorem fList_exact_filtering {α : Type} [DecidableEq α]
    (records : List (Record α)) (key : String) (v : α) :
    (∀ d, d ∈ fList records key (some v) ↔ d ∈ records ∧ pyGet d key = some v) ∧
    List.Sublist (fList records key (some v)) records ∧
    ((∀ d ∈ records, pyGet d key = none) → fList records key (some v) = []) ∧
    ((∀ d ∈ records, pyGet d key = some v) → fList records key (some v) = records) := by
  refine ⟨?_, ?_, ?_, ?_⟩
  · intro d
    simp [fList, List.mem_filter]
  · exact List.filter_sublist _
  · intro h
    apply List.filter_eq_nil_iff.mpr
    intro d hd
    simp [h d hd]
  · intro h
    apply List.filter_eq_self.mpr
    intro d hd
    simp [h d hd]

/-- C8 witness: an absent key gives the empty result; a value matching
every record returns the input verbatim. -/
theorem fList_exact_filtering_witness :
    fList [[("interface", "eth0")], [("interface", "eth1")]] "nokey" (some "eth1") = [] ∧
    fList [[("interface", "eth1"), ("mac", "cc:dd")]] "interface" (some "eth1")
      = [[("interface", "eth1"), ("mac", "cc:dd")]] :=
  ⟨(fList_exact_filtering [[("interface", "eth0")], [("interface", "eth1")]]
      "nokey" "eth1").2.2.1 (by decide),
   (fList_exact_filtering [[("interface", "eth1"), ("mac", "cc:dd")]]
      "interface" "eth1").2.2.2 (by decide)⟩

/-- C9: `_filter_dict` equals mapping `_filter_list` over each group and
then dropping the groups whose filtered list is empty — so surviving keys
follow the input's iteration order, each maps to the filtered list, empty
groups never appear, and a mapping of N groups of which exactly K have
matches yields exactly K keys (the length equation). -/
theorem fDict_grouped_filtering {α : Type} [DecidableEq α]
    (groups : List (String × List (Record α))) (key : String) (v : Option α) :
    fDict groups key v =
      (groups.map (fun kv => (kv.1, fList kv.2 key v))).filter (fun kv => !kv.2.isEmpty) ∧
    (fDict groups key v).length =
      (groups.filter (fun kv => !(fList kv.2 key v).isEmpty)).length := by
  have h1 : fDict groups key v =
      (groups.map (fun kv => (kv.1, fList kv.2 key v))).filter (fun kv => !kv.2.isEmpty) := by
    induction groups with
    | nil => simp [fDict]
    | cons g gs ih =>
      simp only [fDict, List.filterMap_cons, List.map_cons, List.filter_cons] at *
      by_cases h : (fList g.2 key v).isEmpty
      · simp [h]
        simpa using ih
      · simp [h]
        simpa using ih
  refine ⟨h1, ?_⟩
  rw [h1, List.filter_map, List.length_map]
  rfl

/-- The `mac` filtering chain WITHOUT the vlan pass (what runs when the
vlan argument is falsy or not an int). -/
def macNoVlanFilters (t0 : List (Record PyArg)) (address interface : String) :
    List (Record PyArg) :=
  let t2 := if address ≠ "" then fList t0 "mac" (some (.str address)) else t0
  if interface ≠ "" then fList t2 "interface" (some (.str interface)) else t2

/-- C10: `arp`, `mac` and `lldp` return the driver envelope unchanged
(no filtering) when the driver call reports failure; and on success `mac`
skips the vlan filter whenever the vlan argument is not a truthy int. -/
theorem queries_failure_unchanged {β : Type}
    (A M : ProxyOut (List (Record PyArg))) (L : ProxyOut (List (String × Option β)))
    (i p m a itf li : String) (v : PyArg) :
    (A.result = false → arp A i p m = A) ∧
    (M.result = false → mac M a itf v = M) ∧
    (L.result = false → lldp L li = L) ∧
    (M.result = true → (v.truthy && v.isInt) = false →
      (mac M a itf v).out = macNoVlanFilters M.out a itf) :=
  ⟨fun h => by simp [arp, h],
   fun h => by simp [mac, h],
   fun h => by simp [lldp, h],
   fun h hv => by simp [mac, macNoVlanFilters, h, hv]⟩

/-- C10 witness: failing envelopes pass through all three queries
unchanged, and a string vlan "10" never triggers the vlan filter. -/
theorem queries_failure_unchanged_witness :
    arp ⟨false, "proxy down", []⟩ "eth0" "" "" = ⟨false, "proxy down", []⟩ ∧
    mac ⟨false, "proxy down", []⟩ "" "" (PyArg.int 10) = ⟨false, "proxy down", []⟩ ∧
    lldp (⟨false, "proxy down", []⟩ : ProxyOut (List (String × Option Nat))) "eth0"
      = ⟨false, "proxy down", []⟩ ∧
    (mac ⟨true, "", [[("vlan", PyArg.int 10)]]⟩ "" "" (PyArg.str "10")).out
      = macNoVlanFilters [[("vlan", PyArg.int 10)]] "" "" :=
  ⟨(queries_failure_unchanged ⟨false, "proxy down", []⟩ ⟨false, "proxy down", []⟩
      (⟨false, "proxy down", []⟩ : ProxyOut (List (String × Option Nat)))
      "eth0" "" "" "" "" "eth0" (PyArg.int 10)).1 rfl,
   (queries_failure_unchanged ⟨false, "proxy down", []⟩ ⟨false, "proxy down", []⟩
      (⟨false, "proxy down", []⟩ : ProxyOut (List (String × Option Nat)))
      "" "" "" "" "" "" (PyArg.int 10)).2.1 rfl,
   (queries_failure_unchanged ⟨false, "proxy down", []⟩ ⟨false, "proxy down", []⟩
      (⟨false, "proxy down", []⟩ : ProxyOut (List (String × Option Nat)))
      "" "" "" "" "" "eth0" (PyArg.int 10)).2.2.1 rfl,
   (queries_failure_unchanged ⟨false, "proxy down", []⟩ ⟨true, "", [[("vlan", PyArg.int 10)]]⟩
      (⟨false, "proxy down", []⟩ : ProxyOut (List (String × Option Nat)))
      "" "" "" "" "" "" (PyArg.str "10")).2.2.2 rfl rfl⟩
